import Mathlib

/-
Shallow embedding of the yachat group-chat client (src/chat.rs, src/discover.rs,
src/protocol.rs) and proofs of its specified properties.

Modelling conventions:
* `NodeId` (ya_client) is an opaque identifier; we model the parsed form as a
  string and parsing (`NodeId::from_str`) as an abstract `String → Option NodeId`
  parameter, since the parser lives in an external crate.
* `HashMap<NodeId, SendText>` is modelled as an association list with the usual
  update-or-insert / remove-all-occurrences operations; the map never holds two
  entries for one key.
* Timestamps (`DateTime<Utc>`) are opaque instants (`Nat`); console rendering is
  modelled structurally as a `RenderedLine` record holding the three printed
  slots of `println!` in chat.rs.
* Transport (`ya_service_bus`) and market (`ya_client` market API) outcomes are
  supplied as oracle arguments, so each handler is a pure state transformer.
-/

namespace YaChat

/-- Parsed node identifier (opaque; `ya_client::model::NodeId`). -/
abbrev NodeId := String

/-- protocol.rs `TextMessage { content, timestamp }`. -/
structure TextMessage where
  content : String
  timestamp : Nat
  deriving Repr, DecidableEq

/-- protocol.rs / chat.rs `SendText { user, messages }` as used by the chat
handlers (the display name claimed by the sender plus a batch of texts). -/
structure SendText where
  user : String
  messages : List TextMessage
  deriving Repr, DecidableEq

/-- protocol.rs `ChatError`. -/
inductive ChatError where
  | Rejected
  | UnknownUser
  | InvalidNodeId
  deriving Repr, DecidableEq

/-- chat.rs `UserDesc { name, node_id }`. -/
structure UserDesc where
  name : String
  node_id : NodeId
  deriving Repr, DecidableEq

/-- chat.rs `Chat` actor state (the external collaborators `discovery` address
is not state of the router itself). -/
structure Chat where
  me : String
  group : String
  users : List UserDesc
  delivery : List (NodeId × SendText)
  deriving Repr, DecidableEq

/-- chat.rs `NewUser` message. -/
structure NewUserMsg where
  user : String
  address : NodeId
  group : String
  deriving Repr, DecidableEq

/-- `HashMap::get`-style lookup on the delivery map. -/
def deliveryLookup (d : List (NodeId × SendText)) (k : NodeId) : Option SendText :=
  (d.find? (fun p => p.1 == k)).map Prod.snd

/-- `HashMap::remove` on the delivery map. -/
def deliveryRemove (d : List (NodeId × SendText)) (k : NodeId) :
    List (NodeId × SendText) :=
  d.filter (fun p => p.1 != k)

/-- chat.rs `Handler<DeliverLater>` body:
`delivery.entry(k).or_insert(SendText { messages: vec![], user: me }).messages.extend(msgs)`. -/
def deliveryExtend (me : String) (d : List (NodeId × SendText)) (k : NodeId)
    (msgs : List TextMessage) : List (NodeId × SendText) :=
  match d with
  | [] => [(k, ⟨me, msgs⟩)]
  | p :: rest =>
    if p.1 == k then (p.1, ⟨p.2.user, p.2.messages ++ msgs⟩) :: rest
    else p :: deliveryExtend me rest k msgs

/-- The message batch currently pending for a peer (empty if no entry). -/
def lookupMsgs (d : List (NodeId × SendText)) (k : NodeId) : List TextMessage :=
  match deliveryLookup d k with
  | some s => s.messages
  | none => []

/-- The message batch pending for a peer in a chat state. -/
def pendingMessages (c : Chat) (k : NodeId) : List TextMessage :=
  lookupMsgs c.delivery k

/-- chat.rs `Handler<DeliverLater> for Chat`. -/
def handleDeliverLater (c : Chat) (address : NodeId) (messages : SendText) : Chat :=
  { c with delivery := deliveryExtend c.me c.delivery address messages.messages }

/-- chat.rs `send_text`: try the transport; on transport failure hand the batch
to the `DeliverLater` handler and still return `Ok(())`. The transport outcome
is the oracle `transportOk`. -/
def send_text (transportOk : Bool) (c : Chat) (addr : NodeId) (text : SendText) :
    Chat × Except String Unit :=
  if transportOk then (c, .ok ())
  else (handleDeliverLater c addr text, .ok ())

/-- The registry part of chat.rs `Handler<NewUser>` (spec `recordAppearance`):
look the address up among `users`; when found return the existing descriptor
with reappeared = true and mutate nothing, otherwise push a fresh descriptor
and return reappeared = false. -/
def recordAppearance (users : List UserDesc) (user : String) (address : NodeId) :
    List UserDesc × Bool × UserDesc :=
  match users.find? (fun d => d.node_id == address) with
  | some desc => (users, true, desc)
  | none => (users ++ [⟨user, address⟩], false, ⟨user, address⟩)

/-- The visible outcome of one `NewUser` handling. -/
inductive Appearance where
  | filtered
  | fresh (name : String)
  | reappeared (name : String)
  deriving Repr, DecidableEq

/-- chat.rs `Handler<NewUser> for Chat`: filter own occurrences; on a known
address announce reappearance and drain that peer's pending batch for resend
(third component: the batch handed to the spawned `send_text`); on an unknown
address push the new descriptor. -/
def handleNewUser (c : Chat) (m : NewUserMsg) :
    Chat × Appearance × Option (NodeId × SendText) :=
  if m.user == c.me then (c, .filtered, none)
  else
    let r := recordAppearance c.users m.user m.address
    if r.2.1 then
      match deliveryLookup c.delivery r.2.2.node_id with
      | some msgs =>
          ({ c with delivery := deliveryRemove c.delivery r.2.2.node_id },
            .reappeared r.2.2.name, some (r.2.2.node_id, msgs))
      | none => (c, .reappeared r.2.2.name, none)
    else ({ c with users := r.1 }, .fresh m.user, none)

/-- Iterated `recordAppearance` with one fixed identity and a list of claimed
names, returning the final registry and the reappeared flag of every call. -/
def recordMany (users : List UserDesc) (address : NodeId) :
    List String → List UserDesc × List Bool
  | [] => (users, [])
  | n :: ns =>
    let r := recordAppearance users n address
    let rest := recordMany r.1 address ns
    (rest.1, r.2.1 :: rest.2)

/-- Iterated `NewUser` handling (the appearance-dispatch path). -/
def runNewUsers (c : Chat) : List NewUserMsg → Chat
  | [] => c
  | m :: ms => runNewUsers (handleNewUser c m).1 ms

/-- The registry keys: the node ids of the registered peers. -/
def registryKeys (users : List UserDesc) : List NodeId :=
  users.map (fun d => d.node_id)

/-- One printed line of chat.rs `Handler<RpcEnvelope<SendText>>`:
`println!("{} {} > {}", timestamp, user, content)`. -/
structure RenderedLine where
  timestamp : Nat
  sender : String
  content : String
  deriving Repr, DecidableEq

/-- An inbound RPC envelope: the transport-level caller string plus the body. -/
structure Envelope where
  caller : String
  body : SendText
  deriving Repr, DecidableEq

/-- chat.rs `Handler<RpcEnvelope<SendText>> for Chat`: parse the caller
(`NodeId::from_str`, abstracted as `parse`); on failure reply
`ChatError::InvalidNodeId`; otherwise resolve the sender name through the
registry, falling back to the envelope's claimed name, and print every text. -/
def handleSendText (parse : String → Option NodeId) (c : Chat) (env : Envelope) :
    Chat × Except ChatError (List RenderedLine) :=
  match parse env.caller with
  | none => (c, .error .InvalidNodeId)
  | some caller =>
    let user :=
      match c.users.find? (fun d => d.node_id == caller) with
      | some desc => desc.name
      | none => env.body.user
    (c, .ok (env.body.messages.map (fun t => ⟨t.timestamp, user, t.content⟩)))

/-- discover.rs `GroupSubscription` (the `notify` recipient is implicit: events
are dispatched as `NewUserMsg` values in the loop trace). -/
structure GroupSubscription where
  subscription : String
  group : String
  deriving Repr, DecidableEq

/-- discover.rs `Discovery` actor state. -/
structure Discovery where
  listeners : List GroupSubscription
  subscriptions : List String
  deriving Repr, DecidableEq

/-- discover.rs `RequestorEvent` as the discovery loop reads it: a proposal
carries an issuer id (`issuer_id()` may fail) and the value found at the
`/yachat/talk/me` property pointer (may be missing). -/
inductive RequestorEvent where
  | proposalEvent (issuerId : Option String) (mePointer : Option String)
  | propertyQueryEvent
  deriving Repr, DecidableEq

/-- The per-event block of discover.rs `Handler<DiscoverUsers>`: bail on a
`PropertyQueryEvent`, on a missing issuer id, on an unparsable `NodeId` and on
a missing display-name property; otherwise build the `NewUser` message. -/
def processEvent (parse : String → Option NodeId) (group : String) :
    RequestorEvent → Option NewUserMsg
  | .propertyQueryEvent => none
  | .proposalEvent issuerId mePointer =>
    match issuerId with
    | none => none
    | some nid =>
      match parse nid with
      | none => none
      | some address =>
        match mePointer with
        | none => none
        | some user => some ⟨user, address, group⟩

/-- The `NewUser` messages dispatched from one polled batch: failed events are
logged and skipped, the rest of the batch is still processed. -/
def processBatch (parse : String → Option NodeId) (group : String)
    (events : List RequestorEvent) : List NewUserMsg :=
  events.filterMap (processEvent parse group)

/-- One observable step of the discovery polling loop. -/
inductive LoopAction where
  | polled (sub : String)
  | loggedPollError
  | backedOff (seconds : Nat)
  | dispatched (m : NewUserMsg)
  | loggedEventError
  deriving Repr, DecidableEq

/-- One subscription's slice of discover.rs `Handler<DiscoverUsers>`: call
`market.collect`; on failure log, back off 4 seconds and move on (`continue`);
on success process each event, logging failures and dispatching the rest. -/
def pollSub (poll : String → Except String (List RequestorEvent))
    (parse : String → Option NodeId) (sub : GroupSubscription) : List LoopAction :=
  LoopAction.polled sub.subscription ::
    match poll sub.subscription with
    | .error _ => [.loggedPollError, .backedOff 4]
    | .ok events =>
      events.map (fun e =>
        match processEvent parse sub.group e with
        | some m => .dispatched m
        | none => .loggedEventError)

/-- The full pass of discover.rs `Handler<DiscoverUsers>` over all cloned
listeners, in order. -/
def discoverPass (poll : String → Except String (List RequestorEvent))
    (parse : String → Option NodeId) : List GroupSubscription → List LoopAction
  | [] => []
  | sub :: rest => pollSub poll parse sub ++ discoverPass poll parse rest

/-- discover.rs `Handler<DiscoverUsers> for Discovery`: the handler clones the
listener list, runs a pass over it and re-arms itself; the actor state is left
untouched. -/
def handleDiscoverUsers (poll : String → Except String (List RequestorEvent))
    (parse : String → Option NodeId) (d : Discovery) :
    Discovery × List LoopAction :=
  (d, discoverPass poll parse d.listeners)

/-- discover.rs `Handler<InitChatGroup>` publish legs: subscribe the offer on
the provider market, then (only if that succeeded) the demand on the requestor
market, returning `(listener, subscription)`. Outcomes are the two oracles. -/
def joinPublish (offerRes demandRes : Except String String) :
    Except String (String × String) :=
  match offerRes with
  | .error e => .error e
  | .ok subscription =>
    match demandRes with
    | .error e => .error e
    | .ok listener => .ok (listener, subscription)

/-- discover.rs `Handler<InitChatGroup> for Discovery`: on a successful dual
publish push the listener and the subscription; on any publish failure log and
return the error, retaining nothing. -/
def handleInitChatGroup (d : Discovery) (group : String)
    (offerRes demandRes : Except String String) :
    Discovery × Except String Unit :=
  match joinPublish offerRes demandRes with
  | .ok (listener, subscription) =>
      ({ d with
          listeners := d.listeners ++ [⟨listener, group⟩],
          subscriptions := d.subscriptions ++ [subscription] },
        .ok ())
  | .error e => (d, .error e)

/-- discover.rs `Handler<Shutdown> for Discovery`: drain both subscription
lists and return the legs to unsubscribe, provider subscriptions first. -/
def handleShutdownDiscovery (d : Discovery) : Discovery × List String :=
  (⟨[], []⟩, d.subscriptions ++ d.listeners.map (fun g => g.subscription))

/-- The unsubscribe loops of discover.rs `Handler<Shutdown>`: each leg is
attempted; a failure is logged (`map_err(..).ok()`) and the loop continues. -/
def runUnsubscribes (unsub : String → Except String Unit) :
    List String → List (String × Bool)
  | [] => []
  | s :: rest =>
    (match unsub s with
     | .ok _ => (s, true)
     | .error _ => (s, false)) :: runUnsubscribes unsub rest

/-
Helper lemmas about the delivery map.
-/

theorem lookupMsgs_extend (me : String) (d : List (NodeId × SendText)) (k : NodeId)
    (msgs : List TextMessage) :
    lookupMsgs (deliveryExtend me d k msgs) k = lookupMsgs d k ++ msgs := by
  induction d with
  | nil => simp [deliveryExtend, lookupMsgs, deliveryLookup, List.find?]
  | cons p rest ih =>
    cases h : p.1 == k with
    | true => simp [deliveryExtend, lookupMsgs, deliveryLookup, List.find?, h]
    | false =>
      simp only [deliveryExtend, h, Bool.false_eq_true, if_false]
      simpa [lookupMsgs, deliveryLookup, List.find?, h] using ih

theorem deliveryLookup_remove (d : List (NodeId × SendText)) (k : NodeId) :
    deliveryLookup (deliveryRemove d k) k = none := by
  have h : (deliveryRemove d k).find? (fun p => p.1 == k) = none := by
    rw [List.find?_eq_none]
    intro x hx
    simpa using List.of_mem_filter hx
  simp [deliveryLookup, h]

/-
C3 and C4.
-/

/-- C3: for every message and peer, `send_text` never raises an error to its
caller on transport failure: a failed transport send appends the message batch
to that peer's pending delivery (creating the entry if absent) and returns
`Ok(())`; a successful send changes nothing. -/
theorem c3_sendTo_transport_failure_queues (ok : Bool) (c : Chat) (addr : NodeId)
    (text : SendText) :
    (send_text ok c addr text).2 = .ok () ∧
    send_text true c addr text = (c, .ok ()) ∧
    (send_text false c addr text).1.users = c.users ∧
    pendingMessages (send_text false c addr text).1 addr
      = pendingMessages c addr ++ text.messages := by
  refine ⟨?_, rfl, rfl, ?_⟩
  · cases ok <;> rfl
  · simpa [send_text, handleDeliverLater, pendingMessages] using
      lookupMsgs_extend c.me c.delivery addr text.messages

/-- C4: if either publish leg of `InitChatGroup` (offer or demand) fails, the
handler returns an error and retains no subscription state for that group. -/
theorem c4_join_partial_failure (d : Discovery) (group : String)
    (offerRes demandRes : Except String String)
    (h : (∃ e, offerRes = .error e) ∨ (∃ e, demandRes = .error e)) :
    (handleInitChatGroup d group offerRes demandRes).1 = d ∧
    ∃ e, (handleInitChatGroup d group offerRes demandRes).2 = .error e := by
  cases offerRes with
  | error e => exact ⟨rfl, e, rfl⟩
  | ok s =>
    cases demandRes with
    | error e => exact ⟨rfl, e, rfl⟩
    | ok l =>
      rcases h with ⟨e, he⟩ | ⟨e, he⟩ <;> exact absurd he (by simp)

/-- Witness for C4: joining "g2" where the demand publish fails returns an
error and leaves the empty discovery state untouched. -/
theorem c4_witness :
    (handleInitChatGroup ⟨[], []⟩ "g2" (.ok "s1") (.error "boom")).1
        = (⟨[], []⟩ : Discovery) ∧
    ∃ e, (handleInitChatGroup ⟨[], []⟩ "g2" (.ok "s1") (.error "boom")).2
        = .error e :=
  c4_join_partial_failure ⟨[], []⟩ "g2" (.ok "s1") (.error "boom")
    (Or.inr ⟨"boom", rfl⟩)

/-
C1: repeated recordAppearance with one identity.
-/

theorem find?_append_none {α : Type} (p : α → Bool) (l₁ l₂ : List α)
    (h : l₁.find? p = none) : (l₁ ++ l₂).find? p = l₂.find? p := by
  induction l₁ with
  | nil => rfl
  | cons a l ih =>
    cases hp : p a with
    | true => simp [List.find?_cons_of_pos _ hp] at h
    | false =>
      rw [List.find?_cons_of_neg _ (by simp [hp])] at h
      rw [List.cons_append, List.find?_cons_of_neg _ (by simp [hp])]
      exact ih h

theorem recordMany_present (users : List UserDesc) (address : NodeId)
    (desc : UserDesc)
    (h : users.find? (fun d => d.node_id == address) = some desc)
    (ns : List String) :
    recordMany users address ns = (users, List.replicate ns.length true) := by
  induction ns with
  | nil => rfl
  | cons m ms ih =>
    simp [recordMany, recordAppearance, h, ih, List.replicate_succ]

/-- C1: for a fresh identity, the first `recordAppearance` call inserts the
descriptor and reports reappeared = false; every later call with that identity
reports reappeared = true and mutates nothing, so the registry grows by
exactly the one inserted descriptor over the whole sequence. -/
theorem c1_recordAppearance_sequence (users : List UserDesc) (address : NodeId)
    (n : String) (ns : List String)
    (hfresh : ∀ d ∈ users, d.node_id ≠ address) :
    recordMany users address (n :: ns)
      = (users ++ [⟨n, address⟩], false :: List.replicate ns.length true) := by
  have hnone : users.find? (fun d => d.node_id == address) = none := by
    rw [List.find?_eq_none]
    intro d hd
    simpa using hfresh d hd
  have hfind : (users ++ [(⟨n, address⟩ : UserDesc)]).find?
      (fun d => d.node_id == address) = some ⟨n, address⟩ := by
    rw [find?_append_none _ _ _ hnone]
    simp [List.find?]
  simp [recordMany, recordAppearance, hnone, recordMany_present _ _ _ hfind ns]

/-- Witness for C1: starting from an empty registry, "bob" appearing twice
under one identity yields flags [false, true] and a one-entry registry. -/
theorem c1_witness :
    recordMany [] "0xbob" ("bob" :: ["bobby"])
      = ([] ++ [⟨"bob", "0xbob"⟩], false :: List.replicate ["bobby"].length true) :=
  c1_recordAppearance_sequence [] "0xbob" "bob" ["bobby"] (by simp)

/-
C2: reappearance drains and resends the whole pending batch; a failed resend
re-queues it unchanged.
-/

/-- C2: on a reappearance the whole pending batch for that peer (if any) is
removed from the delivery map and handed to the resend as one unit, the
registry is not mutated, and if the resend's transport send fails the full
batch ends up queued again, in order, with nothing dropped or deduplicated. -/
theorem c2_reappearance_resend (c : Chat) (m : NewUserMsg) (desc : UserDesc)
    (hme : m.user ≠ c.me)
    (hfind : c.users.find? (fun d => d.node_id == m.address) = some desc) :
    (deliveryLookup c.delivery m.address = none →
      handleNewUser c m = (c, .reappeared desc.name, none)) ∧
    ∀ batch, deliveryLookup c.delivery m.address = some batch →
      (handleNewUser c m).2.1 = .reappeared desc.name ∧
      (handleNewUser c m).1.users = c.users ∧
      (handleNewUser c m).2.2 = some (m.address, batch) ∧
      pendingMessages (handleNewUser c m).1 m.address = [] ∧
      pendingMessages
          (send_text false (handleNewUser c m).1 m.address batch).1 m.address
        = batch.messages := by
  have hdesc : desc.node_id = m.address := by
    simpa using List.find?_some hfind
  have hne : (m.user == c.me) = false := by simpa using hme
  have hrec : recordAppearance c.users m.user m.address = (c.users, true, desc) := by
    simp [recordAppearance, hfind]
  constructor
  · intro hnone
    simp [handleNewUser, hne, hrec, hdesc, hnone]
  · intro batch hbatch
    have hrm : lookupMsgs (deliveryRemove c.delivery m.address) m.address = [] := by
      simp [lookupMsgs, deliveryLookup_remove]
    have hres : handleNewUser c m
        = ({ c with delivery := deliveryRemove c.delivery m.address },
            .reappeared desc.name, some (m.address, batch)) := by
      simp [handleNewUser, hne, hrec, hdesc, hbatch]
    rw [hres]
    refine ⟨rfl, rfl, rfl, hrm, ?_⟩
    simp only [send_text, handleDeliverLater, pendingMessages,
      Bool.false_eq_true, if_false]
    rw [lookupMsgs_extend]
    simp [hrm]

/-- Witness for C2: "bob" reappears while one message is pending for him; the
batch is drained whole, and a failed resend re-queues exactly that batch. -/
theorem c2_witness :
    (handleNewUser ⟨"alice", "g", [⟨"bob", "0xbob"⟩],
          [("0xbob", ⟨"alice", [⟨"hi", 1⟩]⟩)]⟩ ⟨"bob", "0xbob", "g"⟩).2.1
        = .reappeared "bob" ∧
    (handleNewUser ⟨"alice", "g", [⟨"bob", "0xbob"⟩],
          [("0xbob", ⟨"alice", [⟨"hi", 1⟩]⟩)]⟩ ⟨"bob", "0xbob", "g"⟩).1.users
        = [⟨"bob", "0xbob"⟩] ∧
    (handleNewUser ⟨"alice", "g", [⟨"bob", "0xbob"⟩],
          [("0xbob", ⟨"alice", [⟨"hi", 1⟩]⟩)]⟩ ⟨"bob", "0xbob", "g"⟩).2.2
        = some ("0xbob", ⟨"alice", [⟨"hi", 1⟩]⟩) ∧
    pendingMessages (handleNewUser ⟨"alice", "g", [⟨"bob", "0xbob"⟩],
          [("0xbob", ⟨"alice", [⟨"hi", 1⟩]⟩)]⟩ ⟨"bob", "0xbob", "g"⟩).1 "0xbob"
        = [] ∧
    pendingMessages (send_text false
          (handleNewUser ⟨"alice", "g", [⟨"bob", "0xbob"⟩],
            [("0xbob", ⟨"alice", [⟨"hi", 1⟩]⟩)]⟩ ⟨"bob", "0xbob", "g"⟩).1
          "0xbob" ⟨"alice", [⟨"hi", 1⟩]⟩).1 "0xbob"
        = [⟨"hi", 1⟩] :=
  (c2_reappearance_resend
      ⟨"alice", "g", [⟨"bob", "0xbob"⟩], [("0xbob", ⟨"alice", [⟨"hi", 1⟩]⟩)]⟩
      ⟨"bob", "0xbob", "g"⟩ ⟨"bob", "0xbob"⟩ (by decide) (by decide)).2
    ⟨"alice", [⟨"hi", 1⟩]⟩ (by decide)

/-
C6 and C10: inbound envelope handling.
-/

theorem find?_users_eq_none (users : List UserDesc) (nid : NodeId)
    (h : nid ∉ registryKeys users) :
    users.find? (fun d => d.node_id == nid) = none := by
  rw [List.find?_eq_none]
  intro d hd
  simp only [beq_iff_eq]
  intro he
  exact h (he ▸ List.mem_map_of_mem (fun d => d.node_id) hd)

/-- C6: an inbound envelope fails with `InvalidNodeId` exactly when the caller
identity is unparsable; the handler never mutates the chat state; and a
well-formed but unknown caller is accepted, every text being rendered with the
envelope's claimed display name. -/
theorem c6_receive_invalid_vs_unknown (parse : String → Option NodeId)
    (c : Chat) (env : Envelope) :
    ((handleSendText parse c env).2 = .error .InvalidNodeId
        ↔ parse env.caller = none) ∧
    (handleSendText parse c env).1 = c ∧
    (∀ nid, parse env.caller = some nid → nid ∉ registryKeys c.users →
      (handleSendText parse c env).2
        = .ok (env.body.messages.map
            (fun t => ⟨t.timestamp, env.body.user, t.content⟩))) := by
  refine ⟨?_, ?_, ?_⟩
  · cases hp : parse env.caller <;> simp [handleSendText, hp]
  · cases hp : parse env.caller <;> simp [handleSendText, hp]
  · intro nid hp hnot
    simp [handleSendText, hp, find?_users_eq_none c.users nid hnot]

/-- Witness for C6: an unknown caller claiming name "carol" is rendered as
"carol" and an unparsable caller yields `InvalidNodeId`; registry unchanged. -/
theorem c6_witness :
    (handleSendText (fun s => if s = "0xcarol" then some s else none)
          ⟨"alice", "g", [], []⟩ ⟨"0xcarol", ⟨"carol", [⟨"hi", 7⟩]⟩⟩).1
        = ⟨"alice", "g", [], []⟩ ∧
    (handleSendText (fun s => if s = "0xcarol" then some s else none)
          ⟨"alice", "g", [], []⟩ ⟨"0xcarol", ⟨"carol", [⟨"hi", 7⟩]⟩⟩).2
        = .ok [⟨7, "carol", "hi"⟩] ∧
    (handleSendText (fun s => if s = "0xcarol" then some s else none)
          ⟨"alice", "g", [], []⟩ ⟨"???", ⟨"carol", [⟨"hi", 7⟩]⟩⟩).2
        = .error .InvalidNodeId :=
  ⟨(c6_receive_invalid_vs_unknown (fun s => if s = "0xcarol" then some s else none)
      ⟨"alice", "g", [], []⟩ ⟨"0xcarol", ⟨"carol", [⟨"hi", 7⟩]⟩⟩).2.1,
   (c6_receive_invalid_vs_unknown (fun s => if s = "0xcarol" then some s else none)
      ⟨"alice", "g", [], []⟩ ⟨"0xcarol", ⟨"carol", [⟨"hi", 7⟩]⟩⟩).2.2
      "0xcarol" (by simp) (by simp [registryKeys]),
   (c6_receive_invalid_vs_unknown (fun s => if s = "0xcarol" then some s else none)
      ⟨"alice", "g", [], []⟩ ⟨"???", ⟨"carol", [⟨"hi", 7⟩]⟩⟩).1.mpr (by simp)⟩

/-- C10: when the caller identity is already registered, the rendered sender
name is the registered display name; changing the claimed display name in the
envelope does not change the handler's result at all. -/
theorem c10_registered_name_wins (parse : String → Option NodeId) (c : Chat)
    (caller : String) (body : SendText) (nid : NodeId) (desc : UserDesc)
    (hp : parse caller = some nid)
    (hfind : c.users.find? (fun d => d.node_id == nid) = some desc) :
    handleSendText parse c ⟨caller, body⟩
      = (c, .ok (body.messages.map
          (fun t => ⟨t.timestamp, desc.name, t.content⟩))) ∧
    ∀ claimed, handleSendText parse c ⟨caller, ⟨claimed, body.messages⟩⟩
      = handleSendText parse c ⟨caller, body⟩ := by
  constructor
  · simp [handleSendText, hp, hfind]
  · intro claimed
    simp [handleSendText, hp, hfind]

/-- Witness for C10: registered peer "bob" claims the name "evil" and is still
rendered as "bob". -/
theorem c10_witness :
    handleSendText (fun s => some s) ⟨"alice", "g", [⟨"bob", "0xbob"⟩], []⟩
        ⟨"0xbob", ⟨"evil", [⟨"yo", 3⟩]⟩⟩
      = (⟨"alice", "g", [⟨"bob", "0xbob"⟩], []⟩, .ok [⟨3, "bob", "yo"⟩]) ∧
    handleSendText (fun s => some s) ⟨"alice", "g", [⟨"bob", "0xbob"⟩], []⟩
        ⟨"0xbob", ⟨"claimed2", [⟨"yo", 3⟩]⟩⟩
      = handleSendText (fun s => some s) ⟨"alice", "g", [⟨"bob", "0xbob"⟩], []⟩
        ⟨"0xbob", ⟨"evil", [⟨"yo", 3⟩]⟩⟩ :=
  ⟨(c10_registered_name_wins (fun s => some s)
      ⟨"alice", "g", [⟨"bob", "0xbob"⟩], []⟩ "0xbob" ⟨"evil", [⟨"yo", 3⟩]⟩
      "0xbob" ⟨"bob", "0xbob"⟩ rfl (by decide)).1,
   (c10_registered_name_wins (fun s => some s)
      ⟨"alice", "g", [⟨"bob", "0xbob"⟩], []⟩ "0xbob" ⟨"evil", [⟨"yo", 3⟩]⟩
      "0xbob" ⟨"bob", "0xbob"⟩ rfl (by decide)).2 "claimed2"⟩

/-
C5, C8, C9: the discovery polling loop and shutdown.
-/

theorem pollSub_error (poll : String → Except String (List RequestorEvent))
    (parse : String → Option NodeId) (sub : GroupSubscription) (e : String)
    (h : poll sub.subscription = .error e) :
    pollSub poll parse sub
      = [.polled sub.subscription, .loggedPollError, .backedOff 4] := by
  simp [pollSub, h]

theorem discoverPass_append (poll : String → Except String (List RequestorEvent))
    (parse : String → Option NodeId) (l₁ l₂ : List GroupSubscription) :
    discoverPass poll parse (l₁ ++ l₂)
      = discoverPass poll parse l₁ ++ discoverPass poll parse l₂ := by
  induction l₁ with
  | nil => rfl
  | cons s l ih => simp [discoverPass, ih]

theorem polled_mem_discoverPass
    (poll : String → Except String (List RequestorEvent))
    (parse : String → Option NodeId) (subs : List GroupSubscription)
    (sub : GroupSubscription) (h : sub ∈ subs) :
    LoopAction.polled sub.subscription ∈ discoverPass poll parse subs := by
  induction subs with
  | nil => exact absurd h (by simp)
  | cons s l ih =>
    rcases List.mem_cons.mp h with rfl | hl
    · simp [discoverPass, pollSub]
    · simp only [discoverPass, List.mem_append]
      exact Or.inr (ih hl)

/-- C5: when a poll of a subscription fails, the pass logs the error, backs
off 4 seconds and moves on; the listener list is untouched, and since the
handler re-arms itself with the unchanged state, that same subscription is
polled again on the next pass whatever the market then answers. -/
theorem c5_poll_failure_backoff_retry
    (poll : String → Except String (List RequestorEvent))
    (parse : String → Option NodeId) (d : Discovery)
    (sub : GroupSubscription) (e : String)
    (hmem : sub ∈ d.listeners)
    (herr : poll sub.subscription = .error e) :
    (handleDiscoverUsers poll parse d).1 = d ∧
    (∃ pre post, (handleDiscoverUsers poll parse d).2
        = pre ++ ([.polled sub.subscription, .loggedPollError, .backedOff 4]
            ++ post)) ∧
    ∀ poll2, LoopAction.polled sub.subscription
        ∈ (handleDiscoverUsers poll2 parse (handleDiscoverUsers poll parse d).1).2 := by
  refine ⟨rfl, ?_, ?_⟩
  · obtain ⟨l₁, l₂, hl⟩ := List.append_of_mem hmem
    refine ⟨discoverPass poll parse l₁, discoverPass poll parse l₂, ?_⟩
    show discoverPass poll parse d.listeners = _
    rw [hl, discoverPass_append]
    simp [discoverPass, pollSub_error poll parse sub e herr]
  · intro poll2
    exact polled_mem_discoverPass poll2 parse d.listeners sub hmem

/-- Witness for C5: one listener whose poll fails is backed off and polled
again on the re-armed pass. -/
theorem c5_witness :
    (handleDiscoverUsers (fun _ => .error "down") (fun _ => none)
        ⟨[⟨"s1", "g"⟩], ["p1"]⟩).1 = ⟨[⟨"s1", "g"⟩], ["p1"]⟩ ∧
    LoopAction.polled "s1"
      ∈ (handleDiscoverUsers (fun _ => Except.ok []) (fun _ => none)
          (handleDiscoverUsers (fun _ => .error "down") (fun _ => none)
            ⟨[⟨"s1", "g"⟩], ["p1"]⟩).1).2 :=
  ⟨(c5_poll_failure_backoff_retry (fun _ => .error "down") (fun _ => none)
      ⟨[⟨"s1", "g"⟩], ["p1"]⟩ ⟨"s1", "g"⟩ "down" (by simp) rfl).1,
   (c5_poll_failure_backoff_retry (fun _ => .error "down") (fun _ => none)
      ⟨[⟨"s1", "g"⟩], ["p1"]⟩ ⟨"s1", "g"⟩ "down" (by simp) rfl).2.2
     (fun _ => Except.ok [])⟩

/-- The `NewUser` messages among a trace's dispatch actions. -/
def dispatchedOf (acts : List LoopAction) : List NewUserMsg :=
  acts.filterMap (fun a =>
    match a with
    | .dispatched m => some m
    | _ => none)

theorem dispatchedOf_pollSub
    (poll : String → Except String (List RequestorEvent))
    (parse : String → Option NodeId) (sub : GroupSubscription)
    (events : List RequestorEvent)
    (hok : poll sub.subscription = .ok events) :
    dispatchedOf (pollSub poll parse sub) = processBatch parse sub.group events := by
  simp only [pollSub, hok, dispatchedOf, List.filterMap_cons, List.filterMap_map]
  rw [processBatch]
  congr 1
  funext e
  cases h : processEvent parse sub.group e <;> simp [Function.comp, h]

/-- C8: a malformed proposal mid-batch (unexpected event kind, missing issuer,
malformed identity or missing display-name) is logged and skipped: the batch's
dispatched users are those of the earlier part followed by those of the later
part, and the loop trace records the logged event error. -/
theorem c8_malformed_mid_batch
    (poll : String → Except String (List RequestorEvent))
    (parse : String → Option NodeId) (sub : GroupSubscription)
    (pre post : List RequestorEvent) (e : RequestorEvent)
    (h : processEvent parse sub.group e = none)
    (hok : poll sub.subscription = .ok (pre ++ e :: post)) :
    processBatch parse sub.group (pre ++ e :: post)
      = processBatch parse sub.group pre ++ processBatch parse sub.group post ∧
    dispatchedOf (pollSub poll parse sub)
      = processBatch parse sub.group pre ++ processBatch parse sub.group post ∧
    LoopAction.loggedEventError ∈ pollSub poll parse sub := by
  have hsplit : processBatch parse sub.group (pre ++ e :: post)
      = processBatch parse sub.group pre ++ processBatch parse sub.group post := by
    simp [processBatch, List.filterMap_append, List.filterMap_cons, h]
  refine ⟨hsplit, ?_, ?_⟩
  · rw [dispatchedOf_pollSub poll parse sub _ hok, hsplit]
  · simp only [pollSub, hok, List.mem_cons]
    refine Or.inr (List.mem_map.mpr ⟨e, by simp, ?_⟩)
    simp [h]

/-- Witness for C8: a `PropertyQueryEvent` between two valid proposals is
skipped while both neighbours are still dispatched. -/
theorem c8_witness :
    processBatch (fun s => some s) "g"
        ([.proposalEvent (some "0xa") (some "ann")] ++
          .propertyQueryEvent :: [.proposalEvent (some "0xb") (some "ben")])
      = processBatch (fun s => some s) "g" [.proposalEvent (some "0xa") (some "ann")]
          ++ processBatch (fun s => some s) "g"
              [.proposalEvent (some "0xb") (some "ben")] ∧
    dispatchedOf (pollSub
        (fun _ => Except.ok ([.proposalEvent (some "0xa") (some "ann")] ++
          .propertyQueryEvent :: [.proposalEvent (some "0xb") (some "ben")]))
        (fun s => some s) ⟨"s1", "g"⟩)
      = processBatch (fun s => some s) "g" [.proposalEvent (some "0xa") (some "ann")]
          ++ processBatch (fun s => some s) "g"
              [.proposalEvent (some "0xb") (some "ben")] ∧
    LoopAction.loggedEventError ∈ pollSub
        (fun _ => Except.ok ([.proposalEvent (some "0xa") (some "ann")] ++
          .propertyQueryEvent :: [.proposalEvent (some "0xb") (some "ben")]))
        (fun s => some s) ⟨"s1", "g"⟩ :=
  c8_malformed_mid_batch
    (fun _ => Except.ok ([.proposalEvent (some "0xa") (some "ann")] ++
      .propertyQueryEvent :: [.proposalEvent (some "0xb") (some "ben")]))
    (fun s => some s) ⟨"s1", "g"⟩
    [.proposalEvent (some "0xa") (some "ann")]
    [.proposalEvent (some "0xb") (some "ben")]
    .propertyQueryEvent rfl rfl

theorem runUnsubscribes_attempts_all (unsub : String → Except String Unit)
    (l : List String) :
    (runUnsubscribes unsub l).map Prod.fst = l := by
  induction l with
  | nil => rfl
  | cons s rest ih =>
    cases h : unsub s <;> simp [runUnsubscribes, h, ih]

/-- C9: processing a shutdown drains all subscription state, so the re-armed
polling pass issues no further poll; the legs to unsubscribe are every
provider subscription and every listener leg, and each is attempted no matter
how the previous unsubscribes fared. -/
theorem c9_shutdown_stops_polling (d : Discovery)
    (unsub : String → Except String Unit)
    (poll : String → Except String (List RequestorEvent))
    (parse : String → Option NodeId) :
    (handleShutdownDiscovery d).2
        = d.subscriptions ++ d.listeners.map (fun g => g.subscription) ∧
    (runUnsubscribes unsub (handleShutdownDiscovery d).2).map Prod.fst
        = (handleShutdownDiscovery d).2 ∧
    (handleDiscoverUsers poll parse (handleShutdownDiscovery d).1).2 = [] :=
  ⟨rfl, runUnsubscribes_attempts_all unsub _, rfl⟩

/-
C7: the self-filter and the registry key invariants.
-/

theorem registryKeys_append (users : List UserDesc) (d : UserDesc) :
    registryKeys (users ++ [d]) = registryKeys users ++ [d.node_id] := by
  simp [registryKeys]

/-- Structure of one `NewUser` handling: the own name is preserved and the
registry either stays as it was or gains exactly one descriptor whose key was
absent and whose name differs from the own name. -/
theorem handleNewUser_struct (c : Chat) (m : NewUserMsg) :
    (handleNewUser c m).1.me = c.me ∧
    ((handleNewUser c m).1.users = c.users ∨
      ((handleNewUser c m).1.users = c.users ++ [⟨m.user, m.address⟩] ∧
        m.address ∉ registryKeys c.users ∧ m.user ≠ c.me)) := by
  by_cases hme : m.user = c.me
  · simp [handleNewUser, hme]
  · have hne : (m.user == c.me) = false := by simpa using hme
    cases hf : c.users.find? (fun d => d.node_id == m.address) with
    | some desc =>
      have hrec : recordAppearance c.users m.user m.address
          = (c.users, true, desc) := by
        simp [recordAppearance, hf]
      cases hdl : deliveryLookup c.delivery desc.node_id with
      | some msgs => simp [handleNewUser, hne, hrec, hdl]
      | none => simp [handleNewUser, hne, hrec, hdl]
    | none =>
      have hrec : recordAppearance c.users m.user m.address
          = (c.users ++ [⟨m.user, m.address⟩], false, ⟨m.user, m.address⟩) := by
        simp [recordAppearance, hf]
      have hnotin : m.address ∉ registryKeys c.users := by
        intro hmem
        rw [List.find?_eq_none] at hf
        obtain ⟨d, hd, hdeq⟩ := List.mem_map.mp hmem
        exact hf d hd (by simp [hdeq])
      simp [handleNewUser, hne, hrec, hnotin, hme]

theorem runNewUsers_me (c : Chat) (msgs : List NewUserMsg) :
    (runNewUsers c msgs).me = c.me := by
  induction msgs generalizing c with
  | nil => rfl
  | cons m ms ih =>
    simp only [runNewUsers]
    rw [ih]
    exact (handleNewUser_struct c m).1

theorem runNewUsers_no_local (c : Chat) (msgs : List NewUserMsg)
    (localId : NodeId)
    (hself : ∀ x ∈ msgs, x.address = localId → x.user = c.me)
    (hnot : localId ∉ registryKeys c.users) :
    localId ∉ registryKeys (runNewUsers c msgs).users := by
  induction msgs generalizing c with
  | nil => exact hnot
  | cons m ms ih =>
    simp only [runNewUsers]
    apply ih
    · intro x hx hax
      rw [(handleNewUser_struct c m).1]
      exact hself x (List.mem_cons_of_mem _ hx) hax
    · rcases (handleNewUser_struct c m).2 with he | ⟨he, _, hneq⟩
      · rw [he]; exact hnot
      · rw [he, registryKeys_append]
        intro hmem
        rcases List.mem_append.mp hmem with h1 | h2
        · exact hnot h1
        · have haddr : m.address = localId := (List.mem_singleton.mp h2).symm
          exact hneq (hself m (List.mem_cons_self _ _) haddr)

theorem runNewUsers_nodup (c : Chat) (msgs : List NewUserMsg)
    (h : (registryKeys c.users).Nodup) :
    (registryKeys (runNewUsers c msgs).users).Nodup := by
  induction msgs generalizing c with
  | nil => exact h
  | cons m ms ih =>
    simp only [runNewUsers]
    apply ih
    rcases (handleNewUser_struct c m).2 with he | ⟨he, hnin, _⟩
    · rw [he]; exact h
    · rw [he, registryKeys_append]
      refine List.Nodup.append h (List.nodup_singleton _) (fun x hx hxa => ?_)
      have hxe : x = m.address := List.mem_singleton.mp hxa
      subst hxe
      exact hnin hx

/-- C7: a proposal whose display name equals the own name produces no
appearance event and changes nothing; across any dispatch sequence in which
proposals carrying the local identity claim the local name (which the
published discovery properties guarantee), the local identity is never
inserted; and the registry keys stay pairwise distinct. -/
theorem c7_self_filter_and_unique_keys (c : Chat) (m : NewUserMsg)
    (msgs : List NewUserMsg) (localId : NodeId) :
    (m.user = c.me → handleNewUser c m = (c, .filtered, none)) ∧
    ((∀ x ∈ msgs, x.address = localId → x.user = c.me) →
      localId ∉ registryKeys c.users →
      localId ∉ registryKeys (runNewUsers c msgs).users) ∧
    ((registryKeys c.users).Nodup →
      (registryKeys (runNewUsers c msgs).users).Nodup) := by
  refine ⟨?_, fun h1 h2 => runNewUsers_no_local c msgs localId h1 h2,
    fun h => runNewUsers_nodup c msgs h⟩
  intro hme
  simp [handleNewUser, hme]

/-- Witness for C7: alice's own proposal is filtered; over a run with her own
identity claiming her own name and bob appearing twice, her identity is never
registered and the keys stay distinct. -/
theorem c7_witness :
    handleNewUser ⟨"alice", "g", [], []⟩ ⟨"alice", "0xa", "g"⟩
      = (⟨"alice", "g", [], []⟩, .filtered, none) ∧
    "0xa" ∉ registryKeys (runNewUsers ⟨"alice", "g", [], []⟩
        [⟨"alice", "0xa", "g"⟩, ⟨"bob", "0xb", "g"⟩, ⟨"bob", "0xb", "g"⟩]).users ∧
    (registryKeys (runNewUsers ⟨"alice", "g", [], []⟩
        [⟨"alice", "0xa", "g"⟩, ⟨"bob", "0xb", "g"⟩,
          ⟨"bob", "0xb", "g"⟩]).users).Nodup :=
  ⟨(c7_self_filter_and_unique_keys ⟨"alice", "g", [], []⟩ ⟨"alice", "0xa", "g"⟩
      [⟨"alice", "0xa", "g"⟩, ⟨"bob", "0xb", "g"⟩, ⟨"bob", "0xb", "g"⟩]
      "0xa").1 rfl,
   (c7_self_filter_and_unique_keys ⟨"alice", "g", [], []⟩ ⟨"alice", "0xa", "g"⟩
      [⟨"alice", "0xa", "g"⟩, ⟨"bob", "0xb", "g"⟩, ⟨"bob", "0xb", "g"⟩]
      "0xa").2.1 (by decide) (by decide),
   (c7_self_filter_and_unique_keys ⟨"alice", "g", [], []⟩ ⟨"alice", "0xa", "g"⟩
      [⟨"alice", "0xa", "g"⟩, ⟨"bob", "0xb", "g"⟩, ⟨"bob", "0xb", "g"⟩]
      "0xa").2.2 (by decide)⟩

end YaChat
